import Mathlib

/-!
# Finance-Apps extraction scripts: a shallow embedding

This file embeds the category-mapping / extraction / variance scripts of the
Finance-Apps repository (`extract_final.py`, `gen_final_transactions.py`,
`extract_correct.py`, `extract_corrected.py`, `extract_period1.py`,
`calc_corrected_variance.py`, `verify_variance.py`) and proves or refutes
the spec's claims about them.

Spreadsheet cell values are modelled by an inductive `Value`
(empty cell / numeric / text / datetime); Python `float()` is modelled in
full on strings (whitespace, signs, underscores, exponents, `inf`/`nan`),
with finite results as exact rationals `Rat`; Python exceptions are
`Except` errors; skipped rows are `none`. The one standing model boundary:
a cell whose text parses to a non-finite float (`inf`/`nan`) has no `Rat`
amount, and no theorem below concerns such cells.
-/

/-- A calendar datetime as used by the scripts (only the date part matters:
`strftime("%Y-%m-%d")` and range comparisons). -/
structure DateTime where
  year : Nat
  month : Nat
  day : Nat
  deriving DecidableEq, Repr

/-- Lexicographic order on dates, as Python compares `datetime` values
whose time parts are equal. -/
def DateTime.le (a b : DateTime) : Bool :=
  a.year < b.year ||
  (a.year = b.year && (a.month < b.month ||
    (a.month = b.month && a.day ≤ b.day)))

/-- Zero-pad a numeral to width `w`, as `strftime` does. -/
def padNum (w n : Nat) : String :=
  let s := toString n
  String.mk (List.replicate (w - s.length) '0') ++ s

/-- `datetime.strftime("%Y-%m-%d")`. -/
def formatDate (d : DateTime) : String :=
  padNum 4 d.year ++ "-" ++ padNum 2 d.month ++ "-" ++ padNum 2 d.day

/-- A spreadsheet cell value as `openpyxl` delivers it: `None`, a number,
a string, or a datetime. -/
inductive Value where
  | vNone : Value
  | vNum : Rat → Value
  | vStr : String → Value
  | vDate : DateTime → Value
  deriving DecidableEq, Repr

/-- Python truthiness of a cell value (`None`, `0` and `""` are falsy). -/
def pyTruthy : Value → Bool
  | Value.vNone => false
  | Value.vNum q => q ≠ 0
  | Value.vStr s => s ≠ ""
  | Value.vDate _ => true

/-- Python `str()` on a cell value. The numeric rendering is only a
placeholder: no theorem below depends on how a number prints. -/
def pyStr : Value → String
  | Value.vNone => "None"
  | Value.vNum q => toString q
  | Value.vStr s => s
  | Value.vDate d => formatDate d

/-- Python `str.lower()` (character-wise, as stdlib `String.toLower`, but
by structural recursion so that proofs can evaluate it). -/
def lowerStr (s : String) : String := String.mk (s.data.map Char.toLower)

/-- Python `str.strip()`: drop leading and trailing whitespace. -/
def trimStr (s : String) : String :=
  String.mk (((s.data.dropWhile Char.isWhitespace).reverse.dropWhile Char.isWhitespace).reverse)

/-- Python `str.startswith(pre)`. -/
def startsWithStr (s pre : String) : Bool := List.isPrefixOf pre.data s.data

/-- Python `s[:n]`. -/
def takeStr (s : String) (n : Nat) : String := String.mk (s.data.take n)

/-- The result of a successful Python `float()` call: a finite value
(an exact rational here) or one of the non-finite floats. -/
inductive PyFloat where
  | fin : Rat → PyFloat
  | inf : PyFloat
  | ninf : PyFloat
  | nan : PyFloat
  deriving DecidableEq, Repr

/-- Continue a Python digit-part after its first digit: further digits
with single underscores allowed only between digits. Returns the value and
the number of digits consumed. -/
def digitpartGo (acc cnt : Nat) : List Char → Option (Nat × Nat)
  | [] => some (acc, cnt)
  | '_' :: c :: rest =>
    if c.isDigit then digitpartGo (acc * 10 + (c.toNat - 48)) (cnt + 1) rest else none
  | c :: rest =>
    if c = '_' then none
    else if c.isDigit then digitpartGo (acc * 10 + (c.toNat - 48)) (cnt + 1) rest else none

/-- A Python `digitpart`: `digit (["_"] digit)*`; value and digit count. -/
def digitpart? : List Char → Option (Nat × Nat)
  | [] => none
  | c :: rest => if c.isDigit then digitpartGo (c.toNat - 48) 1 rest else none

/-- Split a character list at every occurrence of `ch`. -/
def splitOnCh (ch : Char) : List Char → List (List Char)
  | [] => [[]]
  | c :: rest =>
    let r := splitOnCh ch rest
    if c = ch then [] :: r
    else match r with
      | [] => [[c]]
      | h :: t => (c :: h) :: t

/-- A Python float mantissa: `digitpart | [digitpart] "." [digitpart]`,
at least one digit in total. -/
def parseMantissa (m : List Char) : Option Rat :=
  match splitOnCh '.' m with
  | [i] => (digitpart? i).map (fun p => (p.1 : Rat))
  | [i, f] =>
    match i, f with
    | [], [] => none
    | [], fp => (digitpart? fp).map (fun p => (p.1 : Rat) / (10 : Rat) ^ p.2)
    | ip, [] => (digitpart? ip).map (fun p => (p.1 : Rat))
    | ip, fp => do
        let a ← digitpart? ip
        let b ← digitpart? fp
        pure ((a.1 : Rat) + (b.1 : Rat) / (10 : Rat) ^ b.2)
  | _ => none

/-- A Python float exponent body: optional sign, then a digitpart. -/
def parseExp : List Char → Option Int
  | '-' :: rest => (digitpart? rest).map (fun p => -(p.1 : Int))
  | '+' :: rest => (digitpart? rest).map (fun p => (p.1 : Int))
  | rest => (digitpart? rest).map (fun p => (p.1 : Int))

/-- Scale a mantissa by a power of ten. -/
def applyExp (q : Rat) (ex : Int) : Rat :=
  if 0 ≤ ex then q * (10 : Rat) ^ ex.toNat else q / (10 : Rat) ^ (-ex).toNat

/-- Python `float(s)` on a string: strip surrounding whitespace,
case-insensitively accept an optional sign followed by `inf`/`infinity`/
`nan` or a decimal literal (optional underscores between digits, optional
fraction, optional exponent). `none` is a `ValueError`. -/
def parsePyFloat (s : String) : Option PyFloat :=
  let l := (((s.data.dropWhile Char.isWhitespace).reverse.dropWhile
    Char.isWhitespace).reverse).map Char.toLower
  let (neg, body) : Bool × List Char := match l with
    | '-' :: r => (true, r)
    | '+' :: r => (false, r)
    | r => (false, r)
  if body = ['i', 'n', 'f'] || body = ['i', 'n', 'f', 'i', 'n', 'i', 't', 'y'] then
    some (if neg then PyFloat.ninf else PyFloat.inf)
  else if body = ['n', 'a', 'n'] then some PyFloat.nan
  else
    let res : Option Rat := match splitOnCh 'e' body with
      | [m] => parseMantissa m
      | [m, e] => do
          let qm ← parseMantissa m
          let ex ← parseExp e
          pure (applyExp qm ex)
      | _ => none
    res.map (fun q => PyFloat.fin (if neg then -q else q))

/-- Python `float(v)` on a cell value: numbers pass through (cells are
finite), text parses by `parsePyFloat`, and `None`/datetime raise a
TypeError (`none` here, as is a text ValueError). -/
def pyFloatFull : Value → Option PyFloat
  | Value.vNum q => some (PyFloat.fin q)
  | Value.vStr s => parsePyFloat s
  | _ => none

/-- The finite view of `pyFloatFull`: the parsed amount when it is a
finite rational. Non-finite parses (`inf`/`nan` text) succeed in Python
but leave the exact-rational amount domain of this model; no theorem
below concerns such cells. -/
def pyFloat (v : Value) : Option Rat :=
  match pyFloatFull v with
  | some (PyFloat.fin q) => some q
  | _ => none

/-- The exception Python `float()` raises on each failing cell kind. -/
def floatErrMsg : Value → String
  | Value.vStr _ => "ValueError: could not convert string to float"
  | _ => "TypeError: float() argument must be a string or a real number"

/-- Reading a cell that the script will call `.lower()` on: a text cell is
the string, a falsy cell acts as `""` (`none` here), and a truthy
non-string cell raises an AttributeError. -/
def cellStr? : Value → Except String (Option String)
  | Value.vStr s => .ok (some s)
  | Value.vNone => .ok none
  | Value.vNum q =>
    if q = 0 then .ok none else .error "AttributeError: object has no attribute lower"
  | Value.vDate _ => .error "AttributeError: object has no attribute lower"

/-- One row of the `Transactions` sheet, by the columns the scripts read:
A=date, B=type, C=category, D=description, E=amount, H=notes, I=period. -/
structure Row where
  date : Value
  typeVal : Value
  category : Value
  description : Value
  amount : Value
  notes : Value
  period : Value
  deriving DecidableEq, Repr

/-- An emitted transaction record where the script coerces the amount to a
float (`extract_final`, `gen_final_transactions`, `extract_correct`). -/
structure Txn where
  id : String
  date : String
  label : String
  amount : Rat
  type : String
  category : String
  notes : String
  linkedRuleId : Option String
  deriving DecidableEq, Repr

/-- Does `pat` occur as a prefix of some suffix of `s`? -/
def containsSubAux (pat : List Char) : List Char → Bool
  | [] => List.isPrefixOf pat []
  | c :: rest => List.isPrefixOf pat (c :: rest) || containsSubAux pat rest

/-- Substring containment, `pat in s` for Python. -/
def containsSub (s pat : String) : Bool := containsSubAux pat.data s.data

section ExtractFinal

/-! ## `extract_final.py` -/

/-- The expense branch of `map_to_type_and_category` in `extract_final.py`:
substring tests on the lowercased, stripped category string. -/
def expenseCategory (category_lower : String) : String × String :=
  if containsSub category_lower "tithe" || containsSub category_lower "giving" then
    ("outflow", "giving")
  else if containsSub category_lower "bill" || containsSub category_lower "electricity" ||
      containsSub category_lower "gas" || containsSub category_lower "water" ||
      containsSub category_lower "internet" || containsSub category_lower "phone" then
    ("outflow", "bill")
  else if containsSub category_lower "saving" || containsSub category_lower "investment" then
    ("transfer", "savings")
  else if containsSub category_lower "allowance" || containsSub category_lower "house keep" then
    ("outflow", "allowance")
  else
    ("outflow", "other")

/-- `map_to_type_and_category(excel_type, excel_category)` of
`extract_final.py`. -/
def map_to_type_and_category (excel_type excel_category : Option String) : String × String :=
  let type_lower := (match excel_type with
    | some t => if t ≠ "" then trimStr (lowerStr t) else ""
    | none => "")
  let category_lower := trimStr (lowerStr (excel_category.getD ""))
  if type_lower = "income" then ("income", "income")
  else if type_lower = "expense" then expenseCategory category_lower
  else if type_lower = "transfer" then ("transfer", "savings")
  else ("outflow", "other")

/-- The per-row body of `extract_final.py`'s loop (rows after the header
that are not entirely empty). `.ok none` is a `continue`; `.error` is an
exception that escapes to the script-level `except` and aborts the whole
run: an AttributeError from `.lower()` on a truthy non-string type or
category cell. A ValueError/TypeError from `float()` is caught by the
row-level `except (ValueError, TypeError)` and skips the row; a successful
non-finite parse (`inf`/`nan` text), which Python would emit, leaves the
exact-rational amount domain and is marked as a model boundary. -/
def extract_final_row (txn_id : Nat) (row : Row) : Except String (Option Txn) :=
  if !pyTruthy row.date || row.amount = Value.vNone then .ok none
  else
    let date_str := match row.date with
      | Value.vDate d => formatDate d
      | v => pyStr v
    match cellStr? row.typeVal with
    | .error e => .error e
    | .ok excel_type =>
      match cellStr? row.category with
      | .error e => .error e
      | .ok excel_category =>
        let tc := map_to_type_and_category excel_type excel_category
        match pyFloatFull row.amount with
        | none => .ok none
        | some (PyFloat.fin amount_float) =>
          let notes0 : String :=
            if pyTruthy row.notes && !(startsWithStr (pyStr row.notes) "=") then
              pyStr row.notes else ""
          .ok (some {
            id := "txn-" ++ toString txn_id,
            date := date_str,
            label := if pyTruthy row.description then pyStr row.description else "",
            amount := amount_float,
            type := tc.1,
            category := tc.2,
            notes := if notes0 ≠ "" then trimStr notes0 else "",
            linkedRuleId := none })
        | some _ => .error "model-boundary: nonfinite float amount"

end ExtractFinal

/-- `dict.get(k, d)` over an association list with string keys. -/
def dictGet (m : List (String × String)) (k : String) (d : String) : String :=
  (m.lookup k).getD d

/-- `dict.get(k, d)` where the key is a raw cell value: only a text cell can
equal one of the string keys. -/
def dictGetV (m : List (String × String)) (k : Value) (d : String) : String :=
  match k with
  | Value.vStr s => (m.lookup s).getD d
  | _ => d

section GenFinal

/-! ## `gen_final_transactions.py` -/

/-- `CATEGORY_MAPPING` of `gen_final_transactions.py`. -/
def CATEGORY_MAPPING : List (String × String) := [
  ("Income - FM", "income"),
  ("Income - McD", "income"),
  ("Income - Outlier", "income"),
  ("Income - Gifts", "income"),
  ("Tithe", "giving"),
  ("Offerings", "giving"),
  ("Charity - Perez Uni", "giving"),
  ("Charity - JPC Utilities", "giving"),
  ("Donations (Variable)", "giving"),
  ("Rent", "bill"),
  ("Insurance", "bill"),
  ("Road Tax", "bill"),
  ("Water Bill", "bill"),
  ("Community Fibre / Internet", "bill"),
  ("Electricity & Gas", "bill"),
  ("iPhone Payments", "bill"),
  ("Parents", "bill"),
  ("Credit Card Payment", "bill"),
  ("Fuel", "bill"),
  ("House Keep", "bill"),
  ("Laptop", "bill"),
  ("One-Off Giving (Christmas)", "bill"),
  ("Food", "bill"),
  ("Others", "bill"),
  ("Savings Transfer", "savings")]

/-- `period1_start = datetime(2025, 12, 22)`. -/
def period1_start : DateTime := ⟨2025, 12, 22⟩

/-- `period1_end = datetime(2026, 1, 25)`. -/
def period1_end : DateTime := ⟨2026, 1, 25⟩

/-- The type/category/amount branch of `gen_final_transactions.py`:
positive amounts become income; otherwise a `Transfer` type gives a
transfer with `CATEGORY_MAPPING` fallback `"savings"`, and everything else
an outflow with fallback `"bill"`; non-income amounts are made absolute. -/
def genFinalClassify (type_val : Value) (col_c_str : String) (amount : Rat) :
    String × String × Rat :=
  if amount > 0 then ("income", "income", amount)
  else if pyTruthy type_val && containsSub (pyStr type_val) "Transfer" then
    ("transfer", dictGet CATEGORY_MAPPING col_c_str "savings", |amount|)
  else
    ("outflow", dictGet CATEGORY_MAPPING col_c_str "bill", |amount|)

/-- The per-row body of the `gen_final_transactions.py` loop; `none` is a
`continue` (the bare `except` around `float(amount_val)` catches every
parse failure, and a non-finite parse is outside the model, see above).
The emitted `label` is the raw description cell, rendered here through
`pyStr` to fit the string-typed field; `linkedRuleId` is `none` because
the JSON dict carries no such key and the TypeScript emitter (`ts_lines`)
writes the literal `linkedRuleId: undefined` on every record. -/
def gen_final_row (txn_id : Nat) (row : Row) : Option Txn :=
  if !(pyTruthy row.date && pyTruthy row.category && pyTruthy row.amount) then none
  else match row.date with
    | Value.vDate date_val =>
      if !(DateTime.le period1_start date_val && DateTime.le date_val period1_end) then none
      else if row.amount = Value.vNum 0 then none
      else match pyFloatFull row.amount with
        | some (PyFloat.fin amount0) =>
          let date_str := formatDate date_val
          let col_c_str := trimStr (pyStr row.category)
          let r := genFinalClassify row.typeVal col_c_str amount0
          some {
            id := "txn-" ++ toString txn_id,
            date := date_str,
            label := pyStr row.description,
            amount := r.2.2,
            type := r.1,
            category := r.2.1,
            notes := col_c_str,
            linkedRuleId := none }
        | _ => none
    | _ => none

end GenFinal

section ExtractCorrect

/-! ## `extract_correct.py` -/

/-- `category_to_app` of `extract_correct.py`. -/
def category_to_app : List (String × String) := [
  ("Rent", "bill"),
  ("Insurance", "bill"),
  ("Road Tax", "bill"),
  ("Water Bill", "bill"),
  ("Electricity & Gas", "bill"),
  ("Community Fibre / Internet", "bill"),
  ("iPhone Payments", "bill"),
  ("Parents", "bill"),
  ("Credit Card Payment", "bill"),
  ("Fuel", "bill"),
  ("Laptop", "bill"),
  ("Tithe", "giving"),
  ("Offerings", "giving"),
  ("Charity - Perez Uni", "giving"),
  ("Charity - JPC Utilities", "giving"),
  ("Donations (Variable)", "giving"),
  ("House Keep", "allowance"),
  ("Others", "allowance"),
  ("Uber - TfL", "allowance"),
  ("One-Off Giving (Christmas)", "other"),
  ("Savings Transfer", "savings")]

/-- The per-row body of `extract_correct.py`'s loop. `.ok none` is a
`continue`; `.error` is the uncaught exception (a ValueError on
non-numeric text, a TypeError on a datetime cell) that
`abs(float(amount))` raises — the script has no `try`/`except` around it;
a non-finite parse is a model boundary. -/
def extract_correct_row (idx : Nat) (row : Row) : Except String (Option Txn) :=
  if row.period ≠ Value.vNum 1 || !pyTruthy row.date || !pyTruthy row.amount then .ok none
  else match row.date with
    | Value.vDate d =>
      let date_str := formatDate d
      let category_str := if pyTruthy row.category then pyStr row.category else ""
      let tc : String × String :=
        if row.typeVal = Value.vStr "Income" then ("income", "income")
        else if row.typeVal = Value.vStr "Transfer" then ("transfer", "savings")
        else ("outflow", dictGet category_to_app category_str "other")
      let label := pyStr (if pyTruthy row.description then row.description
        else if pyTruthy row.category then row.category else Value.vStr "")
      match pyFloatFull row.amount with
      | none => .error (floatErrMsg row.amount)
      | some (PyFloat.fin a) =>
        .ok (some {
          id := "txn-" ++ toString idx,
          date := date_str,
          label := label,
          amount := |a|,
          type := tc.1,
          category := tc.2,
          notes := category_str,
          linkedRuleId := if tc.2 = "savings" then some "savings" else none })
      | some _ => .error "model-boundary: nonfinite float amount"
    | _ => .ok none

end ExtractCorrect

section ExtractPeriod1

/-! ## `extract_period1.py` -/

/-- `category_map` of `extract_period1.py`. -/
def category_map : List (String × String) := [
  ("Income - FM", "income"),
  ("Income - Outlier", "income"),
  ("Income - Interest", "income"),
  ("Income - Gift", "income"),
  ("Electricity & Gas", "bill"),
  ("Water", "bill"),
  ("Internet", "bill"),
  ("Mobile", "bill"),
  ("Car Insurance", "bill"),
  ("Tithe", "giving"),
  ("Offerings", "giving"),
  ("Gifts", "giving"),
  ("Charity", "giving"),
  ("Food", "allowance"),
  ("House Keep", "allowance"),
  ("Others", "allowance"),
  ("Savings", "savings")]

/-- `type_map` of `extract_period1.py`. -/
def type_map : List (String × String) := [
  ("Income", "income"),
  ("Expense", "outflow"),
  ("Transfer", "transfer")]

/-- A record emitted by `extract_period1.py`: unlike the other scripts it
stores the raw amount, label and notes cell values, with no coercion and
no absolute value. -/
structure P1Txn where
  id : String
  date : String
  label : Value
  amount : Value
  type : String
  category : String
  notes : Value
  linkedRuleId : Option String
  deriving DecidableEq, Repr

/-- The per-row body of `extract_period1.py`'s loop; `none` is a
`continue`. -/
def extract_period1_row (txn_id : Nat) (row : Row) : Option P1Txn :=
  if row.period ≠ Value.vNum 1 then none
  else if !pyTruthy row.date || row.amount = Value.vNone then none
  else
    let date_str := match row.date with
      | Value.vDate d => formatDate d
      | v => takeStr (pyStr v) 10
    let app_category0 := dictGetV category_map row.category "other"
    let app_type := dictGetV type_map row.typeVal "outflow"
    let app_category :=
      if app_type = "income" then "income"
      else if app_type = "transfer" then "savings"
      else app_category0
    some {
      id := "txn-" ++ toString txn_id,
      date := date_str,
      label := if pyTruthy row.description then row.description else Value.vStr "Transaction",
      amount := row.amount,
      type := app_type,
      category := app_category,
      notes := if pyTruthy row.notes then row.notes else Value.vStr "",
      linkedRuleId :=
        if app_type = "transfer" && app_category = "savings" then some "savings" else none }

end ExtractPeriod1

section ExtractCorrected

/-! ## `extract_corrected.py` -/

/-- `bills_schedule_map` of `extract_corrected.py`, in insertion order. -/
def bills_schedule_map : List (String × String) := [
  ("Rent", "bill"),
  ("Insurance", "bill"),
  ("Road Tax", "bill"),
  ("Water Bill", "bill"),
  ("Community Fibre / Internet", "bill"),
  ("Electricity & Gas", "bill"),
  ("Electricity", "bill"),
  ("Gas", "bill"),
  ("Gas for house", "bill"),
  ("iPhone Payments", "bill"),
  ("SkyMobile", "bill"),
  ("Car insurance", "bill"),
  ("Car Insurance", "bill"),
  ("Tithe", "giving"),
  ("FM Tithe", "giving"),
  ("Offerings", "giving"),
  ("Burnt offering", "giving"),
  ("Burned offering", "giving"),
  ("Thanksgiving Offering", "giving"),
  ("Charity - Perez Uni", "giving"),
  ("Charity - JPC Utilities", "giving"),
  ("Gifts", "giving"),
  ("Gift from Honey", "giving"),
  ("Gift to", "giving"),
  ("Donations (Variable)", "giving"),
  ("Parents", "bill"),
  ("Credit Card Payment", "bill"),
  ("Fuel", "bill"),
  ("House Keep", "allowance"),
  ("Laptop", "bill"),
  ("One-Off Giving (Christmas)", "other"),
  ("Food", "allowance"),
  ("Groceries", "allowance"),
  ("Sainsbury's", "allowance"),
  ("Tesco", "allowance"),
  ("Costco", "allowance"),
  ("Holland bazaar", "allowance"),
  ("Fish Market", "allowance"),
  ("Halal", "allowance"),
  ("Deliveroo", "allowance"),
  ("Uber eats", "allowance"),
  ("KFC", "allowance"),
  ("Boba", "allowance"),
  ("Fried rice", "allowance"),
  ("Chinese fried rice", "allowance"),
  ("Kenkey", "allowance"),
  ("Tuna", "allowance"),
  ("TfL", "allowance"),
  ("Transport", "allowance"),
  ("Uber", "allowance"),
  ("Uber to", "allowance"),
  ("Bolt", "allowance"),
  ("Subscriptions", "allowance"),
  ("Battery", "allowance"),
  ("Wipes", "allowance"),
  ("Cerelac", "allowance"),
  ("Body wash", "allowance"),
  ("Water", "allowance"),
  ("Lebara", "allowance"),
  ("KitKatt", "allowance"),
  ("OpenAI", "allowance"),
  ("Monzo payment", "other"),
  ("Capital one", "other"),
  ("Barclays", "other"),
  ("Internet", "bill"),
  ("Community fibre", "bill"),
  ("Sacrifice", "other"),
  ("Utility", "other"),
  ("Mummy", "other"),
  ("Gift", "other"),
  ("Rent for", "bill"),
  ("Monzo", "other"),
  ("Stocks and Shares", "savings"),
  ("Money Box", "savings"),
  ("Transfer to", "savings"),
  ("Towing", "allowance"),
  ("Fixing", "allowance"),
  ("Post office", "allowance"),
  ("Fuel for", "allowance"),
  ("Hosting", "allowance"),
  ("Ingredients", "allowance"),
  ("Cake", "allowance")]

/-- The fallback `excel_cat_map` inside `map_category`. -/
def excel_cat_map : List (String × String) := [
  ("income", "income"),
  ("Income - FM", "income"),
  ("Income - McD", "income"),
  ("Income - Outlier", "income"),
  ("Income - Gifts", "income"),
  ("Outlier", "income"),
  ("December Salary", "income"),
  ("Interest", "income")]

/-- First table entry whose lowercased key occurs in the lowercased
label (`key.lower() in label_lower`, in insertion order). -/
def firstSubstrMatch (label_lower : String) : List (String × String) → Option String
  | [] => none
  | (k, cat) :: rest =>
    if containsSub label_lower (lowerStr k) then some cat
    else firstSubstrMatch label_lower rest

/-- `map_category(label, category_from_excel)` of `extract_corrected.py`:
substring match over `bills_schedule_map`, then over `excel_cat_map`, then
fall back to the raw Excel category cell when it is truthy, else
`"other"`. The raw-cell fallback can produce values outside the six-value
taxonomy. -/
def map_category (label : String) (category_from_excel : Value) : Value :=
  let label_lower := lowerStr label
  match firstSubstrMatch label_lower bills_schedule_map with
  | some cat => Value.vStr cat
  | none =>
    match firstSubstrMatch label_lower excel_cat_map with
    | some cat => Value.vStr cat
    | none =>
      if pyTruthy category_from_excel then category_from_excel
      else Value.vStr "other"

/-- A record emitted by `extract_corrected.py`: its `category` and `notes`
fields hold whatever `map_category` returned / the raw category cell,
which need not be one of the six taxonomy strings. -/
structure CTxn where
  id : String
  date : String
  label : String
  amount : Rat
  type : String
  category : Value
  notes : Value
  linkedRuleId : Option String
  deriving DecidableEq, Repr

/-- Python `str(description or category or '')` as the scripts build the
label. -/
def labelOf (row : Row) : String :=
  pyStr (if pyTruthy row.description then row.description
    else if pyTruthy row.category then row.category else Value.vStr "")

/-- The per-row body of `extract_corrected.py`'s loop. `.ok none` is a
`continue`, `.error` the uncaught exception from `abs(float(amount))`
(the script has no `try`); a non-finite parse is a model boundary. -/
def extract_corrected_row (idx : Nat) (row : Row) : Except String (Option CTxn) :=
  if !(pyTruthy row.date && pyTruthy row.typeVal && pyTruthy row.amount &&
      pyTruthy row.period) || row.period ≠ Value.vNum 1 then .ok none
  else match row.date with
    | Value.vDate d =>
      let date_str := formatDate d
      let tcat : String × Value :=
        if containsSub (pyStr row.typeVal) "Transfer" then
          ("transfer", Value.vStr "savings")
        else if row.typeVal = Value.vStr "Income" ||
            containsSub (pyStr row.category) "Income" then
          ("income", Value.vStr "income")
        else
          ("outflow", map_category (labelOf row) row.category)
      match pyFloatFull row.amount with
      | none => .error (floatErrMsg row.amount)
      | some (PyFloat.fin a) =>
        .ok (some {
          id := "txn-" ++ toString idx,
          date := date_str,
          label := labelOf row,
          amount := |a|,
          type := tcat.1,
          category := tcat.2,
          notes := row.category,
          linkedRuleId := if tcat.2 = Value.vStr "savings" then some "savings" else none })
      | some _ => .error "model-boundary: nonfinite float amount"
    | _ => .ok none

end ExtractCorrected

section Variance

/-! ## `calc_corrected_variance.py` and `verify_variance.py` -/

/-- A transaction as parsed back out of `plan.ts` by
`calc_corrected_variance.py`'s regex (the fields its actuals loop uses). -/
structure PTxn where
  amount : Rat
  type : String
  category : String
  deriving DecidableEq, Repr

/-- One step of the actuals-accumulation loop of
`calc_corrected_variance.py`: income-typed records add to
`actuals['income']` (whatever their category), transfers are skipped, and
everything else (outflows) adds to `actuals[cat]`. The dict is modelled as
a total function `String → Rat`; the `if cat not in actuals` zero-insertion
changes no value. -/
def actualsStep (acc : String → Rat) (t : PTxn) : String → Rat :=
  if t.type = "income" then
    fun c => if c = "income" then acc c + t.amount else acc c
  else if t.type = "transfer" then acc
  else
    fun c => if c = t.category then acc c + t.amount else acc c

/-- The actuals table computed by `calc_corrected_variance.py` from the
parsed transactions. -/
def actualsOf (ts : List PTxn) : String → Rat :=
  ts.foldl actualsStep (fun _ => 0)

/-- Sum of the amounts of the records satisfying `p`. -/
def sumAmounts (ts : List PTxn) (p : PTxn → Bool) : Rat :=
  ((ts.filter p).map PTxn.amount).sum

/-- `status = "OVER" if variance > 5 else "UNDER" if variance < -5 else
"OK"`, as in both variance scripts. -/
def varianceStatus (variance : Rat) : String :=
  if variance > 5 then "OVER" else if variance < -5 then "UNDER" else "OK"

/-- One line of the variance report. -/
structure VarianceRow where
  category : String
  budget : Rat
  actual : Rat
  variance : Rat
  status : String
  deriving DecidableEq, Repr

/-- The per-category variance loop shared by `calc_corrected_variance.py`
and `verify_variance.py`: `budget = budgets.get(cat, 0)`,
`actual = actuals.get(cat, 0)`, `variance = actual - budget`, and the
OVER/UNDER/OK status. -/
def varianceReport (budgets actuals : List (String × Rat)) (cats : List String) :
    List VarianceRow :=
  cats.map (fun cat =>
    let budget := ((budgets.lookup cat).getD 0)
    let actual := ((actuals.lookup cat).getD 0)
    { category := cat, budget := budget, actual := actual,
      variance := actual - budget, status := varianceStatus (actual - budget) })

end Variance

section Pipelines

/-! ## Whole-run pipelines (for the determinism claim) -/

/-- The whole `extract_final.py` run over the data rows of the sheet:
ids count up from 1, only emitted rows consume an id, and the first
escaping exception aborts the run (the script's surrounding `try` prints
the error and writes nothing). -/
def extract_final_run (rows : List Row) : Except String (List Txn) :=
  (rows.foldlM (fun (acc : List Txn × Nat) row =>
    (match extract_final_row acc.2 row with
    | Except.error e => Except.error e
    | Except.ok (some t) => Except.ok (acc.1 ++ [t], acc.2 + 1)
    | Except.ok none => Except.ok acc : Except String (List Txn × Nat)))
    (([], 1) : List Txn × Nat)).map Prod.fst

/-- The whole `gen_final_transactions.py` run over the data rows: `txn_id`
is incremented just before each append, so ids also count up from 1. -/
def gen_final_run (rows : List Row) : List Txn :=
  (rows.foldl (fun (acc : List Txn × Nat) row =>
    match gen_final_row acc.2 row with
    | some t => (acc.1 ++ [t], acc.2 + 1)
    | none => acc) ([], 1)).1

end Pipelines

section SpecSide

/-! ## Spec-side definitions (for the refinement-style claims) -/

/-- The fixed category taxonomy named by the spec. -/
def catEnum : List String :=
  ["income", "bill", "giving", "allowance", "savings", "other"]

/-- Modelled from the spec: the ordered substring-pattern list that, per
the spec, resolves an expense category in `extract_final.py` — each pattern
paired with the category its match assigns. -/
def expensePatterns : List (String × String) := [
  ("tithe", "giving"), ("giving", "giving"),
  ("bill", "bill"), ("electricity", "bill"), ("gas", "bill"),
  ("water", "bill"), ("internet", "bill"), ("phone", "bill"),
  ("saving", "savings"), ("investment", "savings"),
  ("allowance", "allowance"), ("house keep", "allowance")]

/-- Modelled from the spec: first matching pattern wins; no match falls
back to `"other"`. -/
def firstMatchCategory (cat : String) : List (String × String) → String
  | [] => "other"
  | (p, c) :: rest => if containsSub cat p then c else firstMatchCategory cat rest

end SpecSide

section SampleRows

/-! ## Concrete rows used by witnesses and counterexamples -/

/-- The spec's example row: category "Tithe", type "Expense", amount −410,
dated inside Period 1. -/
def titheRow : Row :=
  { date := Value.vDate ⟨2025, 12, 23⟩,
    typeVal := Value.vStr "Expense",
    category := Value.vStr "Tithe",
    description := Value.vStr "Tithe payment",
    amount := Value.vNum (-410),
    notes := Value.vNone,
    period := Value.vNum 1 }

/-- A Period-1 savings transfer row. -/
def transferRow : Row :=
  { date := Value.vDate ⟨2026, 1, 2⟩,
    typeVal := Value.vStr "Transfer",
    category := Value.vStr "Savings Transfer",
    description := Value.vStr "Monthly savings",
    amount := Value.vNum (-860),
    notes := Value.vNone,
    period := Value.vNum 1 }

/-- A Period-1 expense row whose category appears in no mapping table. -/
def mysteryRow : Row :=
  { date := Value.vDate ⟨2026, 1, 3⟩,
    typeVal := Value.vStr "Expense",
    category := Value.vStr "Mystery Unknown Purchase",
    description := Value.vStr "???",
    amount := Value.vNum (-50),
    notes := Value.vNone,
    period := Value.vNum 1 }

/-- A Period-1 row whose amount cell holds non-numeric text. -/
def badAmountRow : Row :=
  { date := Value.vDate ⟨2026, 1, 4⟩,
    typeVal := Value.vStr "Expense",
    category := Value.vStr "Tithe",
    description := Value.vStr "typo",
    amount := Value.vStr "abc",
    notes := Value.vNone,
    period := Value.vNum 1 }

/-- A Period-1 expense row whose description and category match no table
key: `extract_corrected.py` falls back to the raw category cell. -/
def shoppingRow : Row :=
  { date := Value.vDate ⟨2025, 12, 24⟩,
    typeVal := Value.vStr "Expense",
    category := Value.vStr "Shopping",
    description := Value.vStr "Mall spree",
    amount := Value.vNum (-20),
    notes := Value.vNone,
    period := Value.vNum 1 }

/-- A Period-1 income row (the spec's income example). -/
def incomeRow : Row :=
  { date := Value.vDate ⟨2025, 12, 28⟩,
    typeVal := Value.vStr "Income",
    category := Value.vStr "Income - FM",
    description := Value.vStr "Salary",
    amount := Value.vNum 2000,
    notes := Value.vNone,
    period := Value.vNum 1 }

end SampleRows

section Predicates

/-- The records the actuals loop counts as income: income-typed,
whatever their category. -/
def isIncomeTxn (t : PTxn) : Bool := t.type == "income"

/-- The records the actuals loop adds to `actuals[c]`: neither
income- nor transfer-typed, with category `c`. -/
def isOutflowWith (c : String) (t : PTxn) : Bool :=
  !(t.type == "income") && !(t.type == "transfer") && (t.category == c)

end Predicates

/-! ## Shared lemmas -/

/-- A defaulted association-list lookup lands in any set containing the
default and all the values. -/
theorem dictGet_mem {m : List (String × String)} {S : List String} (k d : String)
    (hm : ∀ p ∈ m, p.2 ∈ S) (hd : d ∈ S) : dictGet m k d ∈ S := by
  induction m with
  | nil => simpa [dictGet, List.lookup] using hd
  | cons a rest ih =>
    simp only [dictGet, List.lookup] at *
    by_cases hk : k = a.1
    · simpa [hk] using hm a (by simp)
    · have : (k == a.1) = false := by simpa using hk
      simpa [this] using ih (fun p hp => hm p (by simp [hp]))

/-- As `dictGet_mem`, for a raw cell key. -/
theorem dictGetV_mem {m : List (String × String)} {S : List String} (k : Value) (d : String)
    (hm : ∀ p ∈ m, p.2 ∈ S) (hd : d ∈ S) : dictGetV m k d ∈ S := by
  cases k with
  | vStr s => exact dictGet_mem s d hm hd
  | vNone => simpa [dictGetV] using hd
  | vNum q => simpa [dictGetV] using hd
  | vDate dd => simpa [dictGetV] using hd

/-- `extract_final`'s category mapper only produces taxonomy categories. -/
theorem map_to_type_and_category_snd_mem (ot oc : Option String) :
    (map_to_type_and_category ot oc).2 ∈ catEnum := by
  unfold map_to_type_and_category expenseCategory catEnum
  rcases ot with _ | t <;> dsimp only <;> split_ifs <;> simp

/-- `gen_final`'s classifier only produces taxonomy categories. -/
theorem genFinalClassify_snd_mem (tv : Value) (c : String) (a : Rat) :
    (genFinalClassify tv c a).2.1 ∈ catEnum := by
  unfold genFinalClassify
  split_ifs
  · simp [catEnum]
  · exact dictGet_mem c "savings" (by decide) (by decide)
  · exact dictGet_mem c "bill" (by decide) (by decide)

/-- `gen_final`'s classifier never emits a negative amount. -/
theorem genFinalClassify_amount_nonneg (tv : Value) (c : String) (a : Rat) :
    0 ≤ (genFinalClassify tv c a).2.2 := by
  unfold genFinalClassify
  split_ifs with h
  · exact le_of_lt h
  · exact abs_nonneg a
  · exact abs_nonneg a

/-- Inversion for `extract_final_row`: an emitted record comes from
string-or-falsy type and category cells, carries the category assigned by
`map_to_type_and_category` on them, and its amount is the finite parsed
float of the amount cell. -/
theorem extract_final_row_inv (i : Nat) (row : Row) (t : Txn)
    (h : extract_final_row i row = Except.ok (some t)) :
    ∃ ot oc q, cellStr? row.typeVal = Except.ok ot ∧
      cellStr? row.category = Except.ok oc ∧
      pyFloat row.amount = some q ∧ t.amount = q ∧
      t.type = (map_to_type_and_category ot oc).1 ∧
      t.category = (map_to_type_and_category ot oc).2 := by
  unfold extract_final_row at h
  split at h
  · exact absurd h (by simp)
  · dsimp only at h
    split at h
    · exact absurd h (by simp)
    · next ot hot =>
      split at h
      · exact absurd h (by simp)
      · next oc hoc =>
        split at h
        · exact absurd h (by simp)
        · next q heq =>
          injection h with h1
          obtain rfl := Option.some.inj h1
          refine ⟨ot, oc, q, hot, hoc, ?_, rfl, rfl, rfl⟩
          unfold pyFloat
          rw [heq]
        · exact absurd h (by simp)

/-- Inversion for `gen_final_row`: an emitted record's type, category and
amount come from `genFinalClassify` on the parsed amount, and its
`linkedRuleId` is always absent. -/
theorem gen_final_row_inv (i : Nat) (row : Row) (t : Txn)
    (h : gen_final_row i row = some t) :
    ∃ d q, row.date = Value.vDate d ∧ pyFloat row.amount = some q ∧
      t.type = (genFinalClassify row.typeVal (trimStr (pyStr row.category)) q).1 ∧
      t.category = (genFinalClassify row.typeVal (trimStr (pyStr row.category)) q).2.1 ∧
      t.amount = (genFinalClassify row.typeVal (trimStr (pyStr row.category)) q).2.2 ∧
      t.linkedRuleId = none := by
  unfold gen_final_row at h
  split at h
  · exact absurd h (by simp)
  · split at h
    · next date_val hdate =>
      split at h
      · exact absurd h (by simp)
      · split at h
        · exact absurd h (by simp)
        · dsimp only at h
          split at h
          · next q heq =>
            obtain rfl := Option.some.inj h
            refine ⟨date_val, q, hdate, ?_, rfl, rfl, rfl, rfl⟩
            unfold pyFloat
            rw [heq]
          · exact absurd h (by simp)
    · exact absurd h (by simp)

/-- Inversion for `extract_correct_row`: an emitted record carries the
absolute parsed amount, one of the three type/category shapes, and a
`linkedRuleId` exactly when its category is `"savings"`. -/
theorem extract_correct_row_inv (i : Nat) (row : Row) (t : Txn)
    (h : extract_correct_row i row = Except.ok (some t)) :
    ∃ q, pyFloat row.amount = some q ∧ t.amount = |q| ∧
      ((t.type = "income" ∧ t.category = "income") ∨
       (t.type = "transfer" ∧ t.category = "savings") ∨
       (t.type = "outflow" ∧
        t.category =
          dictGet category_to_app (if pyTruthy row.category then pyStr row.category else "") "other")) ∧
      t.linkedRuleId = (if t.category = "savings" then some "savings" else none) := by
  unfold extract_correct_row at h
  split at h
  · exact absurd h (by simp)
  · split at h
    · next d hd =>
      dsimp only at h
      split at h
      · exact absurd h (by simp)
      · next q heq =>
        injection h with h1
        obtain rfl := Option.some.inj h1
        refine ⟨q, by unfold pyFloat; rw [heq], rfl, ?_, ?_⟩
        · by_cases hI : row.typeVal = Value.vStr "Income"
          · left; simp [hI]
          · by_cases hT : row.typeVal = Value.vStr "Transfer"
            · right; left; simp [hI, hT]
            · right; right; simp [hI, hT]
        · by_cases hI : row.typeVal = Value.vStr "Income"
          · simp [hI]
          · by_cases hT : row.typeVal = Value.vStr "Transfer"
            · simp [hI, hT]
            · simp [hI, hT]
      · exact absurd h (by simp)
    · exact absurd h (by simp)

/-- Inversion for `extract_period1_row`: the emitted record stores the raw
amount cell, its type and category come from the two lookup tables, and a
transfer always carries `linkedRuleId = some "savings"`. -/
theorem extract_period1_row_inv (i : Nat) (row : Row) (t : P1Txn)
    (h : extract_period1_row i row = some t) :
    t.amount = row.amount ∧
      t.type = dictGetV type_map row.typeVal "outflow" ∧
      t.category = (if t.type = "income" then "income"
        else if t.type = "transfer" then "savings"
        else dictGetV category_map row.category "other") ∧
      (t.type = "transfer" → t.linkedRuleId = some "savings") := by
  unfold extract_period1_row at h
  split at h
  · exact absurd h (by simp)
  · split at h
    · exact absurd h (by simp)
    · dsimp only at h
      obtain rfl := Option.some.inj h
      refine ⟨rfl, rfl, rfl, ?_⟩
      intro htr
      simp only at htr
      simp [htr]

/-- The expense branch of `extract_final`'s mapper is exactly first-match
over the ordered substring-pattern list, with fallback `"other"`. -/
theorem expenseCategory_eq_firstMatch (u : String) :
    (expenseCategory u).2 = firstMatchCategory u expensePatterns := by
  simp only [expenseCategory, firstMatchCategory, expensePatterns]
  by_cases h1 : containsSub u "tithe" = true
  · simp [h1]
  · by_cases h2 : containsSub u "giving" = true
    · simp [h1, h2]
    · by_cases h3 : containsSub u "bill" = true
      · simp [h1, h2, h3]
      · by_cases h4 : containsSub u "electricity" = true
        · simp [h1, h2, h3, h4]
        · by_cases h5 : containsSub u "gas" = true
          · simp [h1, h2, h3, h4, h5]
          · by_cases h6 : containsSub u "water" = true
            · simp [h1, h2, h3, h4, h5, h6]
            · by_cases h7 : containsSub u "internet" = true
              · simp [h1, h2, h3, h4, h5, h6, h7]
              · by_cases h8 : containsSub u "phone" = true
                · simp [h1, h2, h3, h4, h5, h6, h7, h8]
                · by_cases h9 : containsSub u "saving" = true
                  · simp [h1, h2, h3, h4, h5, h6, h7, h8, h9]
                  · by_cases h10 : containsSub u "investment" = true
                    · simp [h1, h2, h3, h4, h5, h6, h7, h8, h9, h10]
                    · by_cases h11 : containsSub u "allowance" = true
                      · simp [h1, h2, h3, h4, h5, h6, h7, h8, h9, h10, h11]
                      · by_cases h12 : containsSub u "house keep" = true
                        · simp [h1, h2, h3, h4, h5, h6, h7, h8, h9, h10, h11, h12]
                        · simp [h1, h2, h3, h4, h5, h6, h7, h8, h9, h10, h11, h12]

/-- On an `"Expense"`-typed row, `extract_final`'s mapper defers to the
expense branch on the lowercased, stripped category. -/
theorem map_to_type_and_category_expense (s : String) :
    map_to_type_and_category (some "Expense") (some s) =
      expenseCategory (trimStr (lowerStr s)) := by
  have h : trimStr (lowerStr "Expense") = "expense" := by decide
  unfold map_to_type_and_category
  simp [h, Option.getD]

/-- The OVER/UNDER/OK trichotomy, as a biconditional for each label. -/
theorem varianceStatus_spec (v : Rat) :
    (varianceStatus v = "OVER" ↔ 5 < v) ∧ (varianceStatus v = "UNDER" ↔ v < -5) ∧
    (varianceStatus v = "OK" ↔ -5 ≤ v ∧ v ≤ 5) := by
  unfold varianceStatus
  split_ifs with h1 h2
  · refine ⟨⟨fun _ => h1, fun _ => rfl⟩, ⟨fun hh => absurd hh (by decide), fun hh => absurd hh (by linarith)⟩,
      ⟨fun hh => absurd hh (by decide), fun hh => absurd hh (by rintro ⟨_, h⟩; linarith)⟩⟩
  · refine ⟨⟨fun hh => absurd hh (by decide), fun hh => absurd hh (by linarith)⟩, ⟨fun _ => h2, fun _ => rfl⟩,
      ⟨fun hh => absurd hh (by decide), fun hh => absurd hh (by rintro ⟨h, _⟩; linarith)⟩⟩
  · push_neg at h1 h2
    exact ⟨⟨fun hh => absurd hh (by decide), fun hh => absurd hh (by linarith)⟩,
      ⟨fun hh => absurd hh (by decide), fun hh => absurd hh (by linarith)⟩,
      ⟨fun _ => ⟨h2, h1⟩, fun _ => rfl⟩⟩

/-- Unfolding a filtered amount sum one record at a time. -/
theorem sumAmounts_cons (t : PTxn) (ts : List PTxn) (p : PTxn → Bool) :
    sumAmounts (t :: ts) p = (if p t then t.amount else 0) + sumAmounts ts p := by
  by_cases h : p t <;> simp [sumAmounts, List.filter_cons, h]

/-- The actuals fold, relative to an arbitrary starting table: outflow
records with category `c` accumulate into `c`, income-typed records into
`"income"` only, and transfers into nothing. -/
theorem actualsFold_eq (ts : List PTxn) (acc : String → Rat) (c : String) :
    (ts.foldl actualsStep acc) c =
      acc c + sumAmounts ts (isOutflowWith c) +
        (if c = "income" then sumAmounts ts isIncomeTxn else 0) := by
  induction ts generalizing acc with
  | nil => simp [sumAmounts]
  | cons t rest ih =>
    rw [List.foldl_cons, ih, sumAmounts_cons, sumAmounts_cons]
    unfold actualsStep isOutflowWith isIncomeTxn
    by_cases hI : t.type = "income"
    · by_cases hInc : c = "income"
      · simp [hI, hInc]; ring
      · simp [hI, hInc]
    · by_cases hT : t.type = "transfer"
      · simp [hI, hT]
      · by_cases hc : c = t.category
        · by_cases hInc : c = "income" <;> simp [hI, hT, hc, hInc] <;> ring
        · have hc2 : ¬(t.category = c) := fun h => hc h.symm
          by_cases hInc : c = "income"
          · subst hInc; simp [hI, hT, hc, hc2]
          · simp [hI, hT, hc, hc2, hInc]

/-! ## Claims -/

/-- C1 (counterexample): in `gen_final_transactions.py` — a category-mapping
script — a row whose raw category matches nothing in the table is assigned
`"bill"`, not `"other"`. -/
theorem c1_counterexample :
    (gen_final_row 1 mysteryRow).map Txn.category = some "bill" ∧
    ("bill" : String) ≠ "other" :=
  ⟨by decide, by decide⟩

/-- C1 (amended): in `extract_final.py` the assigned budget category is
resolved by checking the (lowercased, stripped) raw category string against
an ordered list of substring patterns, first match wins, and no match falls
back to `"other"`; `gen_final_transactions.py` instead resolves by exact
dictionary lookup with fallback `"bill"` (outflows) or `"savings"`
(transfers). -/
theorem c1_category_resolution (s : String) :
    (expenseCategory s).2 = firstMatchCategory s expensePatterns ∧
    (map_to_type_and_category (some "Expense") (some s)).2 =
      firstMatchCategory (trimStr (lowerStr s)) expensePatterns :=
  ⟨expenseCategory_eq_firstMatch s, by
    rw [map_to_type_and_category_expense]; exact expenseCategory_eq_firstMatch _⟩

/-- C2 (confirmed): every row of the variance report has
`variance = actual − budget`, and status OVER exactly when variance > 5,
UNDER exactly when variance < −5, and OK otherwise. -/
theorem c2_variance_report (budgets actuals : List (String × Rat)) (cats : List String)
    (r : VarianceRow) (hr : r ∈ varianceReport budgets actuals cats) :
    r.variance = r.actual - r.budget ∧
    (r.status = "OVER" ↔ 5 < r.variance) ∧
    (r.status = "UNDER" ↔ r.variance < -5) ∧
    (r.status = "OK" ↔ -5 ≤ r.variance ∧ r.variance ≤ 5) := by
  obtain ⟨cat, hc, rfl⟩ := List.mem_map.mp hr
  exact ⟨rfl, varianceStatus_spec _⟩

/-- C2 witness: the income line of `verify_variance.py`'s Period-1 table
(budget 4700, actual 5319.49) satisfies the theorem. -/
theorem c2_witness :
    ((61949 : Rat)/100 = 531949/100 - 4700) ∧
    (("OVER" : String) = "OVER" ↔ 5 < (61949 : Rat)/100) ∧
    (("OVER" : String) = "UNDER" ↔ (61949 : Rat)/100 < -5) ∧
    (("OVER" : String) = "OK" ↔ -5 ≤ (61949 : Rat)/100 ∧ (61949 : Rat)/100 ≤ 5) :=
  c2_variance_report [("income", 4700)] [("income", 531949/100)] ["income"]
    ⟨"income", 4700, 531949/100, 61949/100, "OVER"⟩
    (by simp [varianceReport, varianceStatus, List.lookup]; norm_num)

/-- C9 (confirmed): the extraction output is a function of the workbook
rows alone — equal inputs give equal outputs, there being no random or
time-dependent ingredient in the embedded pipelines. -/
theorem c9_deterministic (rows1 rows2 : List Row) (h : rows1 = rows2) :
    extract_final_run rows1 = extract_final_run rows2 ∧
    gen_final_run rows1 = gen_final_run rows2 := by
  subst h; exact ⟨rfl, rfl⟩

/-- C9 witness: two runs over the same one-row workbook agree. -/
theorem c9_witness :
    extract_final_run [titheRow] = extract_final_run [titheRow] ∧
    gen_final_run [titheRow] = gen_final_run [titheRow] :=
  c9_deterministic [titheRow] [titheRow] rfl

/-- C10 (confirmed): in `gen_final_transactions.py`, any emitted row whose
parsed amount is strictly positive comes out as type `"income"` and
category `"income"` with the amount unchanged, and the classification of a
positive amount is independent of the type (column B) and category
(column C) cells. -/
theorem c10_positive_amount_income (i : Nat) (row : Row) (t : Txn) (q : Rat) :
    (gen_final_row i row = some t → pyFloat row.amount = some q → 0 < q →
      t.type = "income" ∧ t.category = "income" ∧ t.amount = q) ∧
    (∀ tv tv' : Value, ∀ c c' : String, 0 < q →
      genFinalClassify tv c q = ("income", "income", q) ∧
      genFinalClassify tv c q = genFinalClassify tv' c' q) := by
  constructor
  · intro h hq hpos
    obtain ⟨d, q', hd, hq', hty, hcat, hamt, _⟩ := gen_final_row_inv i row t h
    rw [hq] at hq'
    obtain rfl := Option.some.inj hq'
    unfold genFinalClassify at hty hcat hamt
    rw [if_pos hpos] at hty hcat hamt
    exact ⟨hty, hcat, hamt⟩
  · intro tv tv' c c' hpos
    constructor
    · unfold genFinalClassify; rw [if_pos hpos]
    · unfold genFinalClassify; rw [if_pos hpos, if_pos hpos]

/-- C10 witness: the spec's income example row (type "Income", category
"Income - FM", amount 2000) comes out as income/income/2000. -/
theorem c10_witness :
    ("income" : String) = "income" ∧ ("income" : String) = "income" ∧ (2000 : Rat) = 2000 :=
  (c10_positive_amount_income 1 incomeRow
    ⟨"txn-1", "2025-12-28", "Salary", 2000, "income", "income", "Income - FM", none⟩ 2000).1
    (by decide) (by decide) (by decide)

/-- C3 (counterexample): `extract_corrected.py`'s `map_category` falls
back to the raw Excel category cell, so an unmatched expense row is
emitted with category "Shopping", which is none of the six taxonomy
values. -/
theorem c3_counterexample :
    (extract_corrected_row 1 shoppingRow).map (Option.map CTxn.category) =
      Except.ok (some (Value.vStr "Shopping")) ∧
    Value.vStr "Shopping" ∉ catEnum.map Value.vStr :=
  ⟨rfl, by decide⟩

/-- C3 (amended): every record emitted by `extract_final.py`,
`gen_final_transactions.py`, `extract_correct.py` and `extract_period1.py`
carries a category from the six-value taxonomy
{income, bill, giving, allowance, savings, other};
`extract_corrected.py`, whose category fallback is the raw Excel cell,
does not share this invariant. -/
theorem c3_category_enum (i : Nat) (row : Row) :
    (∀ t : Txn, extract_final_row i row = Except.ok (some t) → t.category ∈ catEnum) ∧
    (∀ t : Txn, gen_final_row i row = some t → t.category ∈ catEnum) ∧
    (∀ t : Txn, extract_correct_row i row = Except.ok (some t) → t.category ∈ catEnum) ∧
    (∀ t : P1Txn, extract_period1_row i row = some t → t.category ∈ catEnum) := by
  refine ⟨fun t h => ?_, fun t h => ?_, fun t h => ?_, fun t h => ?_⟩
  · obtain ⟨ot, oc, q, _, _, _, _, _, hcat⟩ := extract_final_row_inv i row t h
    rw [hcat]
    exact map_to_type_and_category_snd_mem _ _
  · obtain ⟨d, q, _, _, _, hcat, _, _⟩ := gen_final_row_inv i row t h
    rw [hcat]
    exact genFinalClassify_snd_mem _ _ _
  · obtain ⟨q, _, _, hshape, _⟩ := extract_correct_row_inv i row t h
    rcases hshape with ⟨_, hcat⟩ | ⟨_, hcat⟩ | ⟨_, hcat⟩ <;> rw [hcat]
    · decide
    · decide
    · exact dictGet_mem _ _ (by decide) (by decide)
  · obtain ⟨_, _, hcat, _⟩ := extract_period1_row_inv i row t h
    rw [hcat]
    split_ifs
    · decide
    · decide
    · exact dictGetV_mem _ _ (by decide) (by decide)

/-- C3 witness: the Tithe example row's emitted category, "giving", is in
the taxonomy. -/
theorem c3_witness : ("giving" : String) ∈ catEnum :=
  (c3_category_enum 1 titheRow).1
    ⟨"txn-1", "2025-12-23", "Tithe payment", -410, "outflow", "giving", "", none⟩ rfl

/-- C4 (counterexample): `extract_period1.py` emits the raw amount cell,
so the Tithe example row comes out with amount −410, which is negative. -/
theorem c4_counterexample :
    (extract_period1_row 1 titheRow).map P1Txn.amount = some (Value.vNum (-410)) ∧
    ¬(0 ≤ (-410 : Rat)) :=
  ⟨by decide, by decide⟩

/-- C4 (amended): in `gen_final_transactions.py` and `extract_correct.py`
every emitted amount is non-negative (the direction is carried by `type`);
`extract_period1.py` (and `extract_final.py`) instead emit the raw signed
amount. -/
theorem c4_amount_nonneg (i : Nat) (row : Row) :
    (∀ t : Txn, gen_final_row i row = some t → 0 ≤ t.amount) ∧
    (∀ t : Txn, extract_correct_row i row = Except.ok (some t) → 0 ≤ t.amount) := by
  constructor
  · intro t h
    obtain ⟨d, q, _, _, _, _, hamt, _⟩ := gen_final_row_inv i row t h
    rw [hamt]
    exact genFinalClassify_amount_nonneg _ _ _
  · intro t h
    obtain ⟨q, _, hamt, _, _⟩ := extract_correct_row_inv i row t h
    rw [hamt]
    exact abs_nonneg q

/-- C4 witness: the Tithe row through `gen_final_transactions.py` has
amount 410 ≥ 0. -/
theorem c4_witness : (0 : Rat) ≤ 410 :=
  (c4_amount_nonneg 1 titheRow).1
    ⟨"txn-1", "2025-12-23", "Tithe payment", 410, "outflow", "giving", "Tithe", none⟩ (by decide)

/-- C5 (counterexample): on the spec's Tithe/Expense/−410 row,
`extract_period1.py` emits type "outflow" and category "giving" but amount
−410, not 410. -/
theorem c5_counterexample :
    (extract_period1_row 1 titheRow).map (fun t => (t.type, t.category, t.amount)) =
      some ("outflow", "giving", Value.vNum (-410)) ∧
    Value.vNum (-410) ≠ Value.vNum 410 :=
  ⟨by decide, by decide⟩

/-- C5 (amended): on a row with category "Tithe", type "Expense", amount
−410, `gen_final_transactions.py` emits {type outflow, category giving,
amount 410}; `extract_final.py` assigns the same type and category but
emits the raw amount −410. -/
theorem c5_tithe_row :
    (gen_final_row 1 titheRow).map (fun t => (t.type, t.category, t.amount)) =
      some ("outflow", "giving", (410 : Rat)) ∧
    map_to_type_and_category (some "Expense") (some "Tithe") = ("outflow", "giving") ∧
    (extract_final_row 1 titheRow).map
        (Option.map (fun t => (t.type, t.category, t.amount))) =
      Except.ok (some ("outflow", "giving", (-410 : Rat))) :=
  ⟨by decide, by decide, rfl⟩

/-- C6 (counterexample): in `extract_correct.py` a row whose amount cell
holds non-numeric text is not skipped — `abs(float(amount))` raises an
uncaught ValueError and the run aborts. -/
theorem c6_counterexample :
    extract_correct_row 1 badAmountRow =
      Except.error "ValueError: could not convert string to float" := rfl

/-- C6 (amended): in `extract_final.py`, a row with a falsy date cell or a
missing amount cell is silently skipped; on rows whose type and category
cells are text-or-falsy, an amount on which `float()` raises is caught and
the row skipped with no error, while a finitely parseable amount always
yields a record carrying whatever category the mapper assigns, a category
string matching no pattern being assigned `"other"`. `extract_final.py`
does abort (AttributeError) when a truthy non-string type cell reaches
`.lower()`, and `extract_correct.py`, which has no `try`/`except` at all,
raises an uncaught ValueError on an unparseable non-empty amount instead
of skipping the row. -/
theorem c6_row_skipping (i : Nat) (row : Row) :
    (pyTruthy row.date = false → extract_final_row i row = Except.ok none) ∧
    (row.amount = Value.vNone → extract_final_row i row = Except.ok none) ∧
    (∀ ot oc, cellStr? row.typeVal = Except.ok ot →
      cellStr? row.category = Except.ok oc →
      pyFloatFull row.amount = none → extract_final_row i row = Except.ok none) ∧
    (∀ ot oc q, cellStr? row.typeVal = Except.ok ot →
      cellStr? row.category = Except.ok oc →
      pyFloatFull row.amount = some (PyFloat.fin q) → pyTruthy row.date = true →
      ∃ t, extract_final_row i row = Except.ok (some t) ∧
        t.category = (map_to_type_and_category ot oc).2) ∧
    (∀ e, cellStr? row.typeVal = Except.error e → pyTruthy row.date = true →
      row.amount ≠ Value.vNone → extract_final_row i row = Except.error e) ∧
    (∀ s, firstMatchCategory (trimStr (lowerStr s)) expensePatterns = "other" →
      (map_to_type_and_category (some "Expense") (some s)).2 = "other") := by
  refine ⟨fun hd => ?_, fun ha => ?_, fun ot oc hot hoc hf => ?_,
    fun ot oc q hot hoc hq hd => ?_, fun e he hd hne => ?_, fun s hs => ?_⟩
  · unfold extract_final_row
    rw [if_pos]
    simp [hd]
  · unfold extract_final_row
    rw [if_pos]
    simp [ha]
  · unfold extract_final_row
    split
    · rfl
    · dsimp only
      split
      · next e he => rw [hot] at he; exact Except.noConfusion he
      · next ot' hot' =>
        split
        · next e he => rw [hoc] at he; exact Except.noConfusion he
        · next oc' hoc' =>
          split
          · rfl
          · next q heq => rw [hf] at heq; exact Option.noConfusion heq
          · next v heq => rw [hf] at heq; exact Option.noConfusion heq
  · have hne : row.amount ≠ Value.vNone := by
      intro h0; rw [h0] at hq; exact Option.noConfusion hq
    unfold extract_final_row
    rw [if_neg (by simp [hd, hne])]
    dsimp only
    rw [hot]
    dsimp only
    rw [hoc]
    dsimp only
    rw [hq]
    exact ⟨_, rfl, rfl⟩
  · unfold extract_final_row
    rw [if_neg (by simp [hd, hne])]
    dsimp only
    rw [he]
  · rw [map_to_type_and_category_expense, expenseCategory_eq_firstMatch]
    exact hs

/-- C6 witness: the non-numeric amount row is skipped without error by
`extract_final.py` (where `extract_correct.py` aborts on it). -/
theorem c6_witness : extract_final_row 1 badAmountRow = Except.ok none :=
  (c6_row_skipping 1 badAmountRow).2.2.1 (some "Expense") (some "Tithe") rfl rfl (by decide)

/-- C7 (counterexample): `gen_final_transactions.py` emits every record —
transfers included — with no `linkedRuleId` (its TypeScript emitter writes
the literal `linkedRuleId: undefined`). -/
theorem c7_counterexample :
    (gen_final_row 1 transferRow).map (fun t => (t.type, t.linkedRuleId)) =
      some ("transfer", (none : Option String)) ∧
    (none : Option String).isSome = false :=
  ⟨by decide, rfl⟩

/-- C7 (amended): in `extract_period1.py` and `extract_correct.py` every
emitted transfer carries `linkedRuleId = "savings"`;
`gen_final_transactions.py` emits `linkedRuleId: undefined` on every
record, transfers included. -/
theorem c7_transfer_linked_rule (i : Nat) (row : Row) :
    (∀ t : P1Txn, extract_period1_row i row = some t → t.type = "transfer" →
      t.linkedRuleId = some "savings") ∧
    (∀ t : Txn, extract_correct_row i row = Except.ok (some t) → t.type = "transfer" →
      t.linkedRuleId = some "savings") := by
  constructor
  · intro t h htr
    exact (extract_period1_row_inv i row t h).2.2.2 htr
  · intro t h htr
    obtain ⟨q, _, _, hshape, hlink⟩ := extract_correct_row_inv i row t h
    rcases hshape with ⟨hty, _⟩ | ⟨_, hcat⟩ | ⟨hty, _⟩
    · rw [htr] at hty; exact absurd hty (by decide)
    · rw [hlink, hcat]; rfl
    · rw [htr] at hty; exact absurd hty (by decide)

/-- C7 witness: the Period-1 savings transfer row through
`extract_period1.py` carries `linkedRuleId = "savings"`. -/
theorem c7_witness :
    (⟨"txn-1", "2026-01-02", Value.vStr "Monthly savings", Value.vNum (-860),
      "transfer", "savings", Value.vStr "", some "savings"⟩ : P1Txn).linkedRuleId =
      some "savings" :=
  (c7_transfer_linked_rule 1 transferRow).1 _ (by decide) rfl

/-- C8 (counterexample): the actuals accumulation does not equal a plain
filter-by-category sum — a single savings transfer of 100 contributes
nothing to `actuals["savings"]`, while the records with category
"savings" sum to 100. -/
theorem c8_counterexample :
    actualsOf [⟨100, "transfer", "savings"⟩] "savings" = 0 ∧
    sumAmounts [⟨100, "transfer", "savings"⟩] (fun t => t.category == "savings") = 100 ∧
    (0 : Rat) ≠ 100 :=
  ⟨by decide, by simp [sumAmounts, List.filter], by decide⟩

/-- C8 (amended): the per-category actual total of
`calc_corrected_variance.py` equals the sum of the amounts of the
non-income, non-transfer (outflow) records with that category, plus — for
the income category only — the sum of the amounts of all income-typed
records regardless of their category field; transfer records contribute to
no total. -/
theorem c8_actuals_characterisation (ts : List PTxn) (c : String) :
    actualsOf ts c =
      sumAmounts ts (isOutflowWith c) +
        (if c = "income" then sumAmounts ts isIncomeTxn else 0) := by
  unfold actualsOf
  rw [actualsFold_eq]
  simp
